import Mathlib

/-!
Verification of the workflow-automation engine (models.py, automation_engine.py,
threads.py) against its natural-language specification.

The Python source is shallowly embedded: pure fragments become Lean functions,
the stateful run loop of `AutomationEngine.play_workflow` becomes explicit
state passing over an `AutomationEngine` structure, the external collaborators
(pyautogui input injection, screen capture, OCR) become environment functions
supplied as arguments, and fallible code returns `Except`/`Option`.
-/

namespace Affentanz

/-! ## models.py — ActionType and Action -/

/-- Embeds the `ActionType` enumeration of models.py (lines 10-21).
The ten members, in definition order. -/
inductive ActionType where
  | MOUSE_MOVE
  | MOUSE_CLICK
  | MOUSE_DOUBLE_CLICK
  | MOUSE_RIGHT_CLICK
  | MOUSE_DRAG
  | KEY_PRESS
  | KEY_COMBO
  | WAIT
  | WAIT_FOR_COLOR
  | WAIT_FOR_TEXT
deriving DecidableEq, Repr

/-- The string value of each enumeration member, exactly as in models.py. -/
def ActionType.value : ActionType → String
  | .MOUSE_MOVE => "Mausbewegung"
  | .MOUSE_CLICK => "Mausklick"
  | .MOUSE_DOUBLE_CLICK => "Doppelklick"
  | .MOUSE_RIGHT_CLICK => "Rechtsklick"
  | .MOUSE_DRAG => "Maus ziehen"
  | .KEY_PRESS => "Taste drücken"
  | .KEY_COMBO => "Tastenkombination"
  | .WAIT => "Warten"
  | .WAIT_FOR_COLOR => "Auf Farbe warten"
  | .WAIT_FOR_TEXT => "Auf Text warten"

/-- Iteration order of `for t in ActionType` (Python iterates an Enum in
definition order). -/
def ActionType.members : List ActionType :=
  [ .MOUSE_MOVE, .MOUSE_CLICK, .MOUSE_DOUBLE_CLICK, .MOUSE_RIGHT_CLICK,
    .MOUSE_DRAG, .KEY_PRESS, .KEY_COMBO, .WAIT, .WAIT_FOR_COLOR,
    .WAIT_FOR_TEXT ]

/-- Embeds the `Action` class of models.py (lines 24-49): an action type plus
a parameter mapping.  The parameter payload is opaque to serialization, so it
is a type parameter `α` here; `to_dict`/`from_dict` pass it through verbatim,
exactly as the Python stores `self.params` unchanged in the dictionary. -/
structure Action (α : Type) where
  action_type : ActionType
  params : α
deriving DecidableEq, Repr

/-- Embeds `Action.to_dict` (models.py lines 38-43): the returned dictionary
holds the action type's string value under "type" and the untouched parameter
mapping under "params"; it is modelled as the pair of those two components. -/
def Action.to_dict {α : Type} (a : Action α) : String × α :=
  (a.action_type.value, a.params)

/-- Embeds `Action.from_dict` (models.py lines 45-49):
`next(t for t in ActionType if t.value == data["type"])` is the first member,
in definition order, whose value equals the stored type string; `next` on an
empty generator raises, which is modelled by `Option`. -/
def Action.from_dict {α : Type} (data : String × α) : Option (Action α) :=
  (ActionType.members.find? (fun t => t.value == data.1)).map
    (fun t => ⟨t, data.2⟩)

/-- C10: for every Action whose action_type is a member of the ActionType
enumeration, `from_dict (to_dict a)` yields an action with the same
action_type and the same params mapping, and the enumeration's string values
are pairwise distinct. -/
theorem action_to_dict_from_dict_roundtrip {α : Type} (a : Action α) :
    Action.from_dict (Action.to_dict a) = some a ∧
      (ActionType.members.map ActionType.value).Nodup := by
  refine ⟨?_, by decide⟩
  obtain ⟨t, p⟩ := a
  cases t <;> rfl

/-! ## automation_engine.py — display topology and the engine record -/

/-- Geometry of one attached display as reported by the windowing system
(`QApplication.screens()` entries: name plus `geometry()` fields). -/
structure ScreenGeom where
  name : String
  width : Int
  height : Int
  x : Int
  y : Int
deriving DecidableEq, Repr

/-- One entry of `screen_info["screens"]` as built by
`AutomationEngine._get_screen_info` (automation_engine.py lines 30-43). -/
structure Screen where
  id : Nat
  name : String
  width : Int
  height : Int
  x : Int
  y : Int
deriving DecidableEq, Repr

/-- The `screen_info` dictionary, whose single key "screens" holds the list
of display records. -/
structure ScreenInfo where
  screens : List Screen
deriving DecidableEq, Repr

/-- Embeds `AutomationEngine._get_screen_info` (lines 30-43): enumerates the
displays the windowing system reports at the moment of the call and records
index, name and geometry of each. -/
def get_screen_info (qscreens : List ScreenGeom) : ScreenInfo :=
  ⟨qscreens.enum.map (fun p =>
    ⟨p.1, p.2.name, p.2.width, p.2.height, p.2.x, p.2.y⟩)⟩

/-- Embeds the state of an `AutomationEngine` instance
(automation_engine.py lines 20-28).  The workflow's action payload type is a
parameter `A`; the run-loop model below treats actions abstractly and lets an
environment decide each dispatch's outcome. -/
structure AutomationEngine (A : Type) where
  workflow : List A
  is_recording : Bool
  is_playing : Bool
  loop_enabled : Bool
  loop_pause : ℚ
  abort_key : String
  screen_info : ScreenInfo

/-- Embeds `AutomationEngine.__init__` (lines 20-28): all flags false, loop
pause 1.0, abort key "esc", and — crucially — `screen_info` populated once,
from the topology visible at construction time. -/
def AutomationEngine.init (A : Type) (qscreens : List ScreenGeom) :
    AutomationEngine A :=
  { workflow := []
    is_recording := false
    is_playing := false
    loop_enabled := false
    loop_pause := 1
    abort_key := "esc"
    screen_info := get_screen_info qscreens }

/-- Embeds `AutomationEngine._get_absolute_coordinates` (lines 176-195):
offsets start at (0, 0); if `screen_id` indexes into the stored
`screen_info["screens"]` list the offsets are taken from that entry; the
result is the offset plus the input coordinates.  `screen_id` is an arbitrary
Python int, hence `Int` here. -/
def AutomationEngine.get_absolute_coordinates {A : Type}
    (eng : AutomationEngine A) (x y : Int) (screen_id : Int) : Int × Int :=
  let screens := eng.screen_info.screens
  let off : Int × Int :=
    if h : 0 ≤ screen_id ∧ screen_id < (screens.length : Int) then
      let screen := screens.get ⟨screen_id.toNat, by omega⟩
      (screen.x, screen.y)
    else (0, 0)
  (off.1 + x, off.2 + y)

/-- C3: out-of-range `screen_id` (negative or ≥ the number of displays, for
any displays list, including the empty one) leaves the coordinates unchanged;
an in-range `screen_id` shifts them by that display's origin. -/
theorem get_absolute_coordinates_offset {A : Type} (eng : AutomationEngine A)
    (x y : Int) (screen_id : Int) :
    (¬ (0 ≤ screen_id ∧ screen_id < (eng.screen_info.screens.length : Int)) →
      eng.get_absolute_coordinates x y screen_id = (x, y)) ∧
    (∀ h : 0 ≤ screen_id ∧ screen_id < (eng.screen_info.screens.length : Int),
      eng.get_absolute_coordinates x y screen_id =
        ((eng.screen_info.screens.get ⟨screen_id.toNat, by omega⟩).x + x,
         (eng.screen_info.screens.get ⟨screen_id.toNat, by omega⟩).y + y)) := by
  constructor
  · intro h
    simp [AutomationEngine.get_absolute_coordinates, h]
  · intro h
    simp [AutomationEngine.get_absolute_coordinates, h]

/-- Witness for C3 at a concrete engine: one display with origin (50, 60);
screen_id −1 applies no offset, screen_id 0 applies (50, 60). -/
theorem get_absolute_coordinates_offset_witness :
    ((AutomationEngine.init Unit [⟨"s0", 800, 600, 50, 60⟩]).get_absolute_coordinates
        7 9 (-1) = (7, 9)) ∧
    ((AutomationEngine.init Unit [⟨"s0", 800, 600, 50, 60⟩]).get_absolute_coordinates
        7 9 0 = (57, 69)) := by
  constructor
  · exact (get_absolute_coordinates_offset
      (AutomationEngine.init Unit [⟨"s0", 800, 600, 50, 60⟩]) 7 9 (-1)).1
      (by decide)
  · exact (get_absolute_coordinates_offset
      (AutomationEngine.init Unit [⟨"s0", 800, 600, 50, 60⟩]) 7 9 0).2
      (by decide)

/-! ## C6 — when is the display topology queried? -/

/-- Coordinate conversion as the spec describes it for claim C6: the
topology snapshot is "queried fresh at conversion time", so the conversion is
computed against the displays attached at the moment the action is executed.
This definition follows the spec's words and exists to be compared with the
engine's `get_absolute_coordinates`, which reads the `screen_info` field
stored at construction. -/
def spec_fresh_to_absolute (current : List ScreenGeom) (x y : Int)
    (screen_id : Int) : Int × Int :=
  let screens := (get_screen_info current).screens
  let off : Int × Int :=
    if h : 0 ≤ screen_id ∧ screen_id < (screens.length : Int) then
      let screen := screens.get ⟨screen_id.toNat, by omega⟩
      (screen.x, screen.y)
    else (0, 0)
  (off.1 + x, off.2 + y)

/-- A topology the engine is constructed under: one display at origin (0, 0). -/
def topologyAtInit : List ScreenGeom := [⟨"A", 1920, 1080, 0, 0⟩]

/-- The topology after a change (the same display re-positioned to x = 100). -/
def topologyAtPlay : List ScreenGeom := [⟨"A", 1920, 1080, 100, 0⟩]

/-- Counterexample to C6 as stated: the engine is constructed while the
display sits at origin (0, 0); by the time the action runs, the display has
moved to (100, 0).  A conversion querying the topology fresh would return
(101, 2), but the engine converts (1, 2) with screen_id 0 to (1, 2): it uses
the snapshot cached in `screen_info` at construction, not the current
topology. -/
theorem get_absolute_coordinates_stale_counterexample :
    (AutomationEngine.init Unit topologyAtInit).get_absolute_coordinates 1 2 0 ≠
      spec_fresh_to_absolute topologyAtPlay 1 2 0 := by
  decide

/-- C6 amended: the topology used to resolve every action's coordinates is
the snapshot taken once at engine construction (stored in `screen_info`), for
the whole engine lifetime; a conversion agrees with a fresh topology query
only when the topology has not changed since construction.  Formally, the
engine's conversion coincides with the fresh-query conversion applied to the
construction-time display list, whatever the current topology happens to
be. -/
theorem get_absolute_coordinates_uses_init_snapshot (A : Type)
    (qscreens : List ScreenGeom) (x y screen_id : Int) :
    (AutomationEngine.init A qscreens).get_absolute_coordinates x y screen_id =
      spec_fresh_to_absolute qscreens x y screen_id := by
  rfl

/-! ## C5 — drag execution (automation_engine.py lines 240-262) -/

/-- The input-injection calls the MOUSE_DRAG branch of `_execute_action` can
emit, in order: `pyautogui.moveTo` and `pyautogui.dragTo`. -/
inductive GuiEvent where
  | moveTo (x y : Int) (duration : ℚ)
  | dragTo (x y : Int) (button : String) (duration : ℚ) (mouseDownUp : Bool)
deriving DecidableEq, Repr

/-- The parameter dictionary of a MOUSE_DRAG action, restricted to the keys
the MOUSE_DRAG branch reads.  Every key read through `params.get(k, d)` in
the source is an `Option` here (its `getD` mirrors the Python default);
`end_x`/`end_y` are read with `params[...]` and are mandatory. -/
structure DragParams where
  start_x : Option Int := none
  start_y : Option Int := none
  end_x : Int
  end_y : Int
  duration : Option ℚ := none
  button : Option String := none
  screen_id : Option Int := none
deriving DecidableEq, Repr

/-- Embeds the MOUSE_DRAG branch of `_execute_action`
(automation_engine.py lines 240-262), producing the trace of backend calls:
convert `(start_x, start_y)` (defaulting each to 0) and `(end_x, end_y)`
through `_get_absolute_coordinates` with the action's screen_id (default 0),
then `moveTo(start, duration=params.get("duration", 0.1) / 2)` followed by
`dragTo(end, button=params.get("button", "left"),
duration=params.get("duration", 0.5), mouseDownUp=True)`.  The current
pointer position is never consulted. -/
def execute_drag {A : Type} (eng : AutomationEngine A) (p : DragParams) :
    List GuiEvent :=
  let screen_id := p.screen_id.getD 0
  let s := eng.get_absolute_coordinates (p.start_x.getD 0) (p.start_y.getD 0)
    screen_id
  let e := eng.get_absolute_coordinates p.end_x p.end_y screen_id
  [ GuiEvent.moveTo s.1 s.2 ((p.duration.getD (1 / 10)) / 2),
    GuiEvent.dragTo e.1 e.2 (p.button.getD "left") (p.duration.getD (1 / 2))
      true ]

/-- The position the drag trace starts from: the coordinates of its first
`moveTo` call. -/
def dragStart (events : List GuiEvent) : Option (Int × Int) :=
  match events.head? with
  | some (GuiEvent.moveTo x y _) => some (x, y)
  | _ => none

/-- A drag action carrying no start position parameters. -/
def dragNoStart : DragParams := { end_x := 3, end_y := 4 }

/-- Counterexample to C5 as stated: on an engine with an empty display list,
executing `dragNoStart` (no start parameters) while the pointer currently sits
at (5, 7) starts the drag at (0, 0) — the code substitutes the default 0 for
each missing start coordinate (lines 243-244) and never queries the pointer —
not at the current pointer position (5, 7). -/
theorem execute_drag_start_counterexample :
    dragStart (execute_drag (AutomationEngine.init Unit []) dragNoStart) =
        some (0, 0) ∧
      dragStart (execute_drag (AutomationEngine.init Unit []) dragNoStart) ≠
        some (5, 7) := by
  constructor
  · rfl
  · decide

/-- C5 amended: for every drag action whose configured duration is `d` —
whether or not it carries explicit start parameters — execution first moves
to the converted start position, each missing start coordinate defaulting to
0 (so a drag with no start parameters starts from the converted (0, 0), never
from the current pointer position), using half of `d`, then performs a
press-move-release drag to the converted end position using the full `d`. -/
theorem execute_drag_semantics {A : Type} (eng : AutomationEngine A)
    (p : DragParams) (d : ℚ) (hd : p.duration = some d) :
    execute_drag eng p =
      [ GuiEvent.moveTo
          (eng.get_absolute_coordinates (p.start_x.getD 0) (p.start_y.getD 0)
            (p.screen_id.getD 0)).1
          (eng.get_absolute_coordinates (p.start_x.getD 0) (p.start_y.getD 0)
            (p.screen_id.getD 0)).2
          (d / 2),
        GuiEvent.dragTo
          (eng.get_absolute_coordinates p.end_x p.end_y (p.screen_id.getD 0)).1
          (eng.get_absolute_coordinates p.end_x p.end_y (p.screen_id.getD 0)).2
          (p.button.getD "left") d true ] := by
  simp [execute_drag, hd]

/-- Witness for C5's amended theorem at a concrete input with an explicit
start position: duration 2 gives a move of duration 1 to the converted
start (1, 2), then a drag of duration 2 to the converted end (3, 4). -/
theorem execute_drag_semantics_witness :
    execute_drag (AutomationEngine.init Unit [⟨"s0", 800, 600, 50, 60⟩])
        { start_x := some 1, start_y := some 2, end_x := 3, end_y := 4,
          duration := some 2 } =
      [ GuiEvent.moveTo 51 62 1,
        GuiEvent.dragTo 53 64 "left" 2 true ] := by
  have h := execute_drag_semantics
    (AutomationEngine.init Unit [⟨"s0", 800, 600, 50, 60⟩])
    { start_x := some 1, start_y := some 2, end_x := 3, end_y := 4,
      duration := some 2 } 2 rfl
  rw [h]
  norm_num [AutomationEngine.get_absolute_coordinates, AutomationEngine.init,
    get_screen_info]

/-! ## C4 — `_wait_for_color` (automation_engine.py lines 315-347)

The polling loop samples the pixel, compares, then sleeps 0.1 s; the while
condition `time.time() - start_time < timeout` is evaluated before each
sample.  With the sleep as the only passage of time, iteration `k` begins at
elapsed time `k / 10` seconds, so the body runs exactly for those `k` with
`k / 10 < timeout` — that is, for `⌈timeout * 10⌉` iterations (none when the
timeout is ≤ 0).  The screen is modelled by `grab : Nat → Option (List Int)`,
the pixel returned by the `k`-th `ImageGrab.grab`; `none` models a sampling
exception, which the source catches and treats as a non-match for that
tick. -/

/-- Embeds the per-sample comparison (lines 336-340): a pixel with more than
3 channels is cut to its first 3 (alpha ignored), then
`all(abs(a-b) <= tolerance for a, b in zip(pixel_color, target_color))`. -/
def colorMatches (pixel target : List Int) (tolerance : Int) : Bool :=
  let px := if pixel.length > 3 then pixel.take 3 else pixel
  (px.zip target).all (fun q => decide (|q.1 - q.2| ≤ tolerance))

/-- One tick of the polling loop body (lines 332-343): grab the pixel and
compare; a failed grab (exception) counts as a non-match. -/
def sampleMatchesColor (grab : Nat → Option (List Int)) (target : List Int)
    (tolerance : Int) (k : Nat) : Bool :=
  match grab k with
  | some px => colorMatches px target tolerance
  | none => false

/-- The while loop of `_wait_for_color`, with the time-bounded iteration
count made explicit as fuel: tick `k`, then tick `k + 1`, …; returns true as
soon as a tick matches, false once the fuel (the time budget) is spent. -/
def colorPollLoop (grab : Nat → Option (List Int)) (target : List Int)
    (tolerance : Int) : Nat → Nat → Bool
  | _, 0 => false
  | k, fuel + 1 =>
    sampleMatchesColor grab target tolerance k ||
      colorPollLoop grab target tolerance (k + 1) fuel

/-- Number of loop iterations a timeout of `timeout` seconds admits at the
0.1 s polling interval: the number of naturals `k` with `k / 10 < timeout`. -/
def colorAttempts (timeout : ℚ) : Nat := (⌈timeout * 10⌉).toNat

/-- Embeds `_wait_for_color`: poll from tick 0 with the time budget the
timeout admits. -/
def wait_for_color (grab : Nat → Option (List Int)) (target : List Int)
    (tolerance : Int) (timeout : ℚ) : Bool :=
  colorPollLoop grab target tolerance 0 (colorAttempts timeout)

theorem colorPollLoop_true_iff (grab : Nat → Option (List Int))
    (target : List Int) (tolerance : Int) :
    ∀ (fuel k : Nat), colorPollLoop grab target tolerance k fuel = true ↔
      ∃ j, j < fuel ∧
        sampleMatchesColor grab target tolerance (k + j) = true := by
  intro fuel
  induction fuel with
  | zero => intro k; simp [colorPollLoop]
  | succ n ih =>
    intro k
    rw [colorPollLoop, Bool.or_eq_true, ih (k + 1)]
    constructor
    · rintro (h | ⟨j, hj, hm⟩)
      · exact ⟨0, by omega, by simpa using h⟩
      · exact ⟨j + 1, by omega, by rwa [show k + (j + 1) = k + 1 + j by omega]⟩
    · rintro ⟨j, hj, hm⟩
      cases j with
      | zero => exact Or.inl (by simpa using hm)
      | succ j =>
        exact Or.inr ⟨j, by omega,
          by rwa [show k + 1 + j = k + (j + 1) by omega]⟩

theorem lt_colorAttempts_iff (timeout : ℚ) (k : Nat) :
    k < colorAttempts timeout ↔ (k : ℚ) / 10 < timeout := by
  unfold colorAttempts
  rw [Int.lt_toNat, Int.lt_ceil, div_lt_iff₀ (by norm_num : (0:ℚ) < 10)]
  push_cast
  exact Iff.rfl

/-- C4: `wait_for_color` returns true iff some tick inside the timeout (one
sample every 0.1 s, so tick `k` happens iff `k/10 < timeout`) grabs a pixel
all of whose channels — after discarding any alpha channel — differ from the
target by at most the tolerance; and with a timeout of 0 it returns false,
performing no sampling at all (hence not blocking beyond one attempt). -/
theorem wait_for_color_iff_match (grab : Nat → Option (List Int))
    (target : List Int) (tolerance : Int) (timeout : ℚ) :
    (wait_for_color grab target tolerance timeout = true ↔
      ∃ k : Nat, (k : ℚ) / 10 < timeout ∧ ∃ px, grab k = some px ∧
        ∀ q ∈ (if px.length > 3 then px.take 3 else px).zip target,
          |q.1 - q.2| ≤ tolerance) ∧
    wait_for_color grab target tolerance 0 = false := by
  constructor
  · rw [wait_for_color, colorPollLoop_true_iff]
    constructor
    · rintro ⟨j, hj, hm⟩
      refine ⟨j, (lt_colorAttempts_iff timeout j).mp hj, ?_⟩
      rw [show (0:Nat) + j = j by omega] at hm
      unfold sampleMatchesColor at hm
      cases hg : grab j with
      | none => rw [hg] at hm; exact absurd hm (by simp)
      | some px =>
        rw [hg] at hm
        refine ⟨px, rfl, ?_⟩
        simpa [colorMatches, List.all_eq_true] using hm
    · rintro ⟨k, hk, px, hg, hall⟩
      refine ⟨k, (lt_colorAttempts_iff timeout k).mpr hk, ?_⟩
      rw [show (0:Nat) + k = k by omega]
      unfold sampleMatchesColor
      rw [hg]
      simpa [colorMatches, List.all_eq_true] using hall
  · have h0 : colorAttempts 0 = 0 := by norm_num [colorAttempts]
    rw [wait_for_color, h0]
    rfl

/-! ## C7 — `_wait_for_text` (automation_engine.py lines 349-381)

The region-shape check `if len(region) != 4: raise ValueError(...)` runs
before the polling loop is entered, so a malformed region produces the error
immediately, for every timeout and every OCR behaviour — no screen capture,
no recognition, no waiting.  The loop itself polls every 0.5 s; OCR is
modelled by `recognize : Nat → Option String`, the text the `k`-th tick
recognizes (`none` models a capture/OCR exception, caught by the source and
treated as a non-match for that tick). -/

/-- Character-list prefix test, first principles (needle starts the hay). -/
def startsWithChars : List Char → List Char → Bool
  | [], _ => true
  | _ :: _, [] => false
  | c :: cs, d :: ds => c == d && startsWithChars cs ds

/-- Python's substring containment `needle in hay` on the character lists. -/
def occursInChars (needle : List Char) : List Char → Bool
  | [] => startsWithChars needle []
  | c :: rest => startsWithChars needle (c :: rest) || occursInChars needle rest

/-- One tick of the text-polling loop body (lines 366-377): recognize the
region and test `text in recognized_text`; a failed capture/OCR counts as a
non-match. -/
def sampleMatchesText (recognize : Nat → Option String) (text : String)
    (k : Nat) : Bool :=
  match recognize k with
  | some s => occursInChars text.data s.data
  | none => false

/-- The while loop of `_wait_for_text`, fuelled like `colorPollLoop`. -/
def textPollLoop (recognize : Nat → Option String) (text : String) :
    Nat → Nat → Bool
  | _, 0 => false
  | k, fuel + 1 =>
    sampleMatchesText recognize text k ||
      textPollLoop recognize text (k + 1) fuel

/-- Number of loop iterations a timeout of `timeout` seconds admits at the
0.5 s polling interval. -/
def textAttempts (timeout : ℚ) : Nat := (⌈timeout * 2⌉).toNat

/-- The exact ValueError message of line 362. -/
def regionErrorMsg : String :=
  "Region muss 4 Werte enthalten: [x, y, width, height]"

/-- Embeds `_wait_for_text`: reject a region without exactly 4 values with a
ValueError, otherwise poll until the text is recognized or the timeout's
iteration budget is spent. -/
def wait_for_text (region : List Int) (text : String) (timeout : ℚ)
    (recognize : Nat → Option String) : Except String Bool :=
  if region.length ≠ 4 then Except.error regionErrorMsg
  else Except.ok (textPollLoop recognize text 0 (textAttempts timeout))

/-- C7: `wait_for_text` raises the invalid-argument (ValueError) error iff
the region does not hold exactly 4 values — immediately, for every timeout
and recognizer, i.e. without polling or waiting — and with a well-formed
region it never raises: it returns a boolean, in particular false when the
timeout is 0. -/
theorem wait_for_text_region_contract (region : List Int) (text : String)
    (timeout : ℚ) (recognize : Nat → Option String) :
    (wait_for_text region text timeout recognize =
        Except.error regionErrorMsg ↔ region.length ≠ 4) ∧
    (region.length = 4 →
      wait_for_text region text 0 recognize = Except.ok false) := by
  constructor
  · unfold wait_for_text
    by_cases h : region.length = 4
    · simp [h]
    · simp [h]
  · intro h
    have h2 : textAttempts 0 = 0 := by norm_num [textAttempts]
    unfold wait_for_text
    rw [if_neg (by omega), h2]
    rfl

/-- Witness for C7 at concrete inputs: a 3-value region errors out even with
a generous timeout and an OCR that would match at once, while the 4-value
region with timeout 0 returns false. -/
theorem wait_for_text_region_contract_witness :
    (wait_for_text [0, 0, 200] "Hallo" 10 (fun _ => some "Hallo Welt") =
        Except.error regionErrorMsg ↔ ([0, 0, 200] : List Int).length ≠ 4) ∧
    (wait_for_text [0, 0, 200, 100] "Hallo" 0 (fun _ => some "Hallo Welt") =
        Except.ok false) := by
  constructor
  · exact (wait_for_text_region_contract [0, 0, 200] "Hallo" 10
      (fun _ => some "Hallo Welt")).1
  · exact (wait_for_text_region_contract [0, 0, 200, 100] "Hallo" 10
      (fun _ => some "Hallo Welt")).2 (by decide)

/-! ## C8 — RecordingThread.run (threads.py lines 106-155)

The sampling loop reads the pointer position and the clock each pass.  A
pointer-move action is emitted only when
`self._distance(current, last) > self.min_move_distance` and
`current_time - self.last_mouse_time > self.min_move_interval`; only then are
`last_mouse_position`/`last_mouse_time` updated, so "last" always refers to
the previously *emitted* sample (initialised from the initial sample, which
is itself emitted before the loop).  `_distance` computes the Euclidean
distance `((dx)**2 + (dy)**2) ** 0.5`; since positions are integer pixels and
the square root is monotone, `distance > 10` is embedded as its exact
equivalent `dx^2 + dy^2 > 10^2`. -/

/-- Default `self.min_move_distance` (threads.py line 103), in pixels. -/
def min_move_distance : Int := 10

/-- Default `self.min_move_interval` (threads.py line 104), 0.2 seconds. -/
def min_move_interval : ℚ := 1 / 5

/-- One pointer sample: position and the clock reading taken with it. -/
structure Sample where
  pos : Int × Int
  time : ℚ
deriving DecidableEq, Repr

/-- Squared Euclidean distance between two pointer positions; the source's
`_distance(p, q) > threshold` comparison is `distSq p q > threshold ^ 2`. -/
def distSq (p q : Int × Int) : Int :=
  (p.1 - q.1) ^ 2 + (p.2 - q.2) ^ 2

/-- The emission guard of threads.py lines 135-136. -/
def shouldEmit (s : Sample) (lastPos : Int × Int) (lastTime : ℚ) : Bool :=
  decide (distSq s.pos lastPos > min_move_distance ^ 2) &&
    decide (s.time - lastTime > min_move_interval)

/-- The sampling loop (threads.py lines 122-149), as a function from the
stream of samples the loop observes to the pointer-move actions it emits:
an emission updates the last-emitted position and time, a suppressed sample
leaves them unchanged. -/
def recLoop (lastPos : Int × Int) (lastTime : ℚ) : List Sample → List Sample
  | [] => []
  | s :: rest =>
    if shouldEmit s lastPos lastTime then s :: recLoop s.pos s.time rest
    else recLoop lastPos lastTime rest

/-- Embeds `RecordingThread.run` (lines 106-149): the initial position is
emitted unconditionally and seeds the debounce state, then the loop runs over
the remaining samples. -/
def recording_run (initPos : Int × Int) (initTime : ℚ)
    (samples : List Sample) : List Sample :=
  ⟨initPos, initTime⟩ :: recLoop initPos initTime samples

theorem recLoop_chain (samples : List Sample) :
    ∀ (lastPos : Int × Int) (lastTime : ℚ),
      List.Chain
        (fun a b : Sample =>
          min_move_distance ^ 2 < distSq b.pos a.pos ∧
            min_move_interval < b.time - a.time)
        ⟨lastPos, lastTime⟩ (recLoop lastPos lastTime samples) := by
  induction samples with
  | nil => intro lastPos lastTime; exact List.Chain.nil
  | cons s rest ih =>
    intro lastPos lastTime
    rw [recLoop]
    by_cases h : shouldEmit s lastPos lastTime = true
    · rw [if_pos h]
      unfold shouldEmit at h
      rw [Bool.and_eq_true, decide_eq_true_iff, decide_eq_true_iff] at h
      exact List.Chain.cons ⟨h.1, h.2⟩ (by simpa using ih s.pos s.time)
    · rw [if_neg h]
      exact ih lastPos lastTime

/-- C8: along the emitted action sequence of a recording run — the initial
pointer-move included — every pair of consecutively emitted actions is
separated by more than the minimum-motion threshold (squared Euclidean
distance above 10² px²) and by more than the minimum interval (0.2 s); hence
two samples closer than the threshold, or closer in time than the interval,
never both produce emitted actions. -/
theorem recording_run_debounced (initPos : Int × Int) (initTime : ℚ)
    (samples : List Sample) :
    List.Chain'
      (fun a b : Sample =>
        min_move_distance ^ 2 < distSq b.pos a.pos ∧
          min_move_interval < b.time - a.time)
      (recording_run initPos initTime samples) := by
  show List.Chain _ _ _
  exact recLoop_chain samples initPos initTime

/-! ## C1, C2, C9 — AutomationEngine.play_workflow (lines 119-163)

The run loop is embedded as explicit state passing.  The environment decides
what the collaborators do: `exec p i a` is the outcome of
`_execute_action` for action `a` at index `i` of pass `p` (`Except.error`
models a raised exception — including the pyautogui fail-safe interlock,
which `_execute_action` re-raises at lines 307-313); `abort_key_down p i` is
the `_check_abort_key()` reading taken right after the step callback of that
action; `abort_during_pause p` is the reading taken during the loop pause
after pass `p`.

`play_workflow`'s return type is `Except String (engine × callbacks ×
caught)`: an `Except.error` result would model an exception escaping to the
caller.  Because the Python body wraps the whole loop in
`except Exception as e: print(...)` (lines 160-161), no path constructs
`Except.error`; a caught exception only surfaces in the third component (the
message line 161 prints), and the `finally` of lines 162-163 resets
`is_playing`.  The fuel bounds the number of iterations of the outer
`while self.is_playing` loop; any actual return of the Python call is
reproduced by a large enough fuel. -/

/-- Collaborator behaviour for one call of `play_workflow`. -/
structure PlayEnv (A : Type) where
  exec : Nat → Nat → A → Except String Unit
  abort_key_down : Nat → Nat → Bool
  abort_during_pause : Nat → Bool

/-- Embeds the `for i, action in enumerate(self.workflow)` pass
(lines 134-146) starting at index `i` with the given `is_playing` value.
Returns the indices passed to the step callback, the `is_playing` value after
the pass, and the exception that aborted the pass, if any.  Per the source:
a pass stops at once when `is_playing` is false; an exception from
`_execute_action` propagates before the callback for that index runs; the
abort-key check runs after the callback and, when the key is down, clears
`is_playing` and breaks. -/
def passLoop {A : Type} (env : PlayEnv A) (p : Nat) :
    Nat → List A → Bool → List Nat × Bool × Option String
  | _, [], playing => ([], playing, none)
  | i, a :: rest, playing =>
    if playing then
      match env.exec p i a with
      | Except.error e => ([], playing, some e)
      | Except.ok _ =>
        if env.abort_key_down p i then ([i], false, none)
        else
          let r := passLoop env p (i + 1) rest playing
          (i :: r.1, r.2.1, r.2.2)
    else ([], playing, none)

/-- Embeds the `while self.is_playing` loop (lines 133-159): run a pass; an
exception leaves the loop at once; otherwise stop unless looping is enabled
and the run is still playing; with a positive loop pause, an abort-key press
during the pause stops the run; otherwise repeat.  Returns all callback
indices in order and the exception that escaped the loop body, if any. -/
def playLoop {A : Type} (env : PlayEnv A) (actions : List A)
    (loop_enabled : Bool) (loop_pause : ℚ) :
    Nat → Nat → Bool → List Nat × Option String
  | 0, _, _ => ([], none)
  | fuel + 1, p, playing =>
    if playing then
      let r := passLoop env p 0 actions playing
      match r.2.2 with
      | some e => (r.1, some e)
      | none =>
        if loop_enabled = false ∨ r.2.1 = false then (r.1, none)
        else if 0 < loop_pause ∧ env.abort_during_pause p = true then
          (r.1, none)
        else
          let r2 := playLoop env actions loop_enabled loop_pause fuel (p + 1)
            r.2.1
          (r.1 ++ r2.1, r2.2)
    else ([], none)

/-- Embeds `AutomationEngine.play_workflow` (lines 119-163): the guard of
line 126 returns at once, unchanged, when already playing or when the
workflow is empty; otherwise `is_playing` is set, the loop runs inside
`try/except Exception/finally`, every exception is caught and printed
(third component), `finally` clears `is_playing`, and the call returns
normally — `Except.error` (an exception reaching the caller) is never
produced. -/
def play_workflow {A : Type} (eng : AutomationEngine A) (env : PlayEnv A)
    (fuel : Nat) :
    Except String (AutomationEngine A × List Nat × Option String) :=
  if eng.is_playing || eng.workflow.isEmpty then
    Except.ok (eng, [], none)
  else
    let r := playLoop env eng.workflow eng.loop_enabled eng.loop_pause fuel 0
      true
    Except.ok ({ eng with is_playing := false }, r.1, r.2)

/-- An engine holding one pointer-move action, as built by constructing the
engine and recording a single action. -/
def engFailSafe : AutomationEngine String :=
  { AutomationEngine.init String [] with workflow := ["mouse_move (10, 10)"] }

/-- A collaborator whose action dispatch raises the pyautogui fail-safe
interlock (the pointer was forced into the safe corner), which
`_execute_action` re-raises to `play_workflow`. -/
def envFailSafe : PlayEnv String :=
  { exec := fun _ _ _ => Except.error "PyAutoGUI fail-safe ausgelöst"
    abort_key_down := fun _ _ => false
    abort_during_pause := fun _ => false }

/-- C1 evaluated at the failing input: the lone action raises the fail-safe
interlock, yet `play_workflow` returns normally (`Except.ok`, never
`Except.error`) — the `except Exception` of line 160 swallows the exception
and merely prints it (third component).  `is_playing` is indeed false
afterwards (the `finally`), but the exception does not propagate to the
caller, so `WorkflowThread.run`'s error handler (threads.py lines 46-47)
can never fire for an action failure, contradicting the claim and the
source's own comment at automation_engine.py line 310. -/
theorem play_workflow_swallows_failsafe :
    play_workflow engFailSafe envFailSafe 1 =
      Except.ok ({ engFailSafe with is_playing := false }, [],
        some "PyAutoGUI fail-safe ausgelöst") := by
  rfl

theorem passLoop_all_ok {A : Type} (env : PlayEnv A) (p : Nat)
    (hexec : ∀ i a, env.exec p i a = Except.ok ())
    (habort : ∀ i, env.abort_key_down p i = false) :
    ∀ (actions : List A) (i : Nat),
      passLoop env p i actions true =
        (List.range' i actions.length, true, none) := by
  intro actions
  induction actions with
  | nil => intro i; simp [passLoop]
  | cons a rest ih =>
    intro i
    rw [passLoop]
    simp only [if_true, hexec i a, habort i, if_false, ih (i + 1),
      List.length_cons]
    simp [List.range'_succ]

/-- C2: starting `play_workflow` on a non-empty workflow of length N while
not already playing, with looping disabled, no action raising and the abort
key never down, invokes the step callback exactly N times with arguments
0, 1, …, N−1 in that order, once each, and returns normally. -/
theorem play_workflow_callback_indices {A : Type} (eng : AutomationEngine A)
    (env : PlayEnv A) (fuel : Nat)
    (hplay : eng.is_playing = false) (hne : eng.workflow ≠ [])
    (hloop : eng.loop_enabled = false)
    (hexec : ∀ p i a, env.exec p i a = Except.ok ())
    (habort : ∀ p i, env.abort_key_down p i = false)
    (hfuel : 1 ≤ fuel) :
    play_workflow eng env fuel =
      Except.ok ({ eng with is_playing := false },
        List.range eng.workflow.length, none) := by
  obtain ⟨f, rfl⟩ : ∃ f, fuel = f + 1 := ⟨fuel - 1, by omega⟩
  have hempty : eng.workflow.isEmpty = false := by
    cases h : eng.workflow with
    | nil => exact absurd h hne
    | cons a rest => rfl
  rw [play_workflow]
  simp only [hplay, hempty, Bool.or_self, Bool.false_eq_true, if_false]
  rw [playLoop]
  simp only [if_true, passLoop_all_ok env 0 (hexec 0) (habort 0), hloop]
  simp [List.range_eq_range']

/-- A two-action workflow on a freshly constructed engine. -/
def engTwoSteps : AutomationEngine Unit :=
  { AutomationEngine.init Unit [] with workflow := [(), ()] }

/-- Collaborators for which every dispatch succeeds and the abort key is
never down. -/
def envAllOk : PlayEnv Unit :=
  { exec := fun _ _ _ => Except.ok ()
    abort_key_down := fun _ _ => false
    abort_during_pause := fun _ => false }

/-- Witness for C2 at a concrete input: the two-action workflow yields the
callback sequence `List.range 2 = [0, 1]`. -/
theorem play_workflow_callback_indices_witness :
    play_workflow engTwoSteps envAllOk 1 =
      Except.ok ({ engTwoSteps with is_playing := false },
        List.range engTwoSteps.workflow.length, none) :=
  play_workflow_callback_indices engTwoSteps envAllOk 1 rfl (by decide) rfl
    (fun _ _ _ => rfl) (fun _ _ => rfl) (by omega)

/-- C9: a run of `play_workflow` started while not already playing — whatever
the collaborators do: every action may raise, the abort key may be pressed at
any point, looping may be on or off — returns normally with the workflow
action list identical to what it was before and `is_playing` false, so the
engine is restartable. -/
theorem play_workflow_preserves_workflow {A : Type} (eng : AutomationEngine A)
    (env : PlayEnv A) (fuel : Nat) (hplay : eng.is_playing = false) :
    ∃ eng' cbs caught,
      play_workflow eng env fuel = Except.ok (eng', cbs, caught) ∧
        eng'.workflow = eng.workflow ∧ eng'.is_playing = false := by
  rw [play_workflow]
  by_cases hcond : (eng.is_playing || eng.workflow.isEmpty) = true
  · refine ⟨eng, [], none, ?_, rfl, hplay⟩
    simp [hcond]
  · refine ⟨{ eng with is_playing := false },
      (playLoop env eng.workflow eng.loop_enabled eng.loop_pause fuel 0
        true).1,
      (playLoop env eng.workflow eng.loop_enabled eng.loop_pause fuel 0
        true).2, ?_, rfl, rfl⟩
    simp [hcond]

/-- An engine whose three-action workflow runs with looping enabled. -/
def engLooping : AutomationEngine Unit :=
  { AutomationEngine.init Unit [] with
    workflow := [(), (), ()], loop_enabled := true }

/-- Collaborators whose second pass fails on the first action and whose abort
key goes down at the end of the first pass's pause. -/
def envSecondPassFails : PlayEnv Unit :=
  { exec := fun p _ _ =>
      if p = 0 then Except.ok () else Except.error "AttributeError"
    abort_key_down := fun _ _ => false
    abort_during_pause := fun _ => false }

/-- Witness for C9 at a concrete input: a looping run whose second pass
raises still hands back an engine with the same three-action workflow and
`is_playing` false. -/
theorem play_workflow_preserves_workflow_witness :
    ∃ eng' cbs caught,
      play_workflow engLooping envSecondPassFails 5 =
          Except.ok (eng', cbs, caught) ∧
        eng'.workflow = engLooping.workflow ∧ eng'.is_playing = false :=
  play_workflow_preserves_workflow engLooping envSecondPassFails 5 rfl

/-! ## Concrete instantiations of the remaining theorems -/

/-- Witness instantiation for C6's theorem: on the construction-time topology
the engine's conversion and the fresh-query conversion agree. -/
theorem get_absolute_coordinates_uses_init_snapshot_witness :
    (AutomationEngine.init Unit topologyAtInit).get_absolute_coordinates
        1 2 0 = spec_fresh_to_absolute topologyAtInit 1 2 0 :=
  get_absolute_coordinates_uses_init_snapshot Unit topologyAtInit 1 2 0

/-- A screen whose pixel matches the target from tick 3 on; before that the
capture fails. -/
def grabMatchAt3 : Nat → Option (List Int) :=
  fun k => if k = 3 then some [10, 10, 10] else none

/-- Witness instantiation for C4's theorem at a concrete screen, target,
tolerance and timeout. -/
theorem wait_for_color_iff_match_witness :
    (wait_for_color grabMatchAt3 [12, 9, 11] 5 1 = true ↔
      ∃ k : Nat, (k : ℚ) / 10 < 1 ∧ ∃ px, grabMatchAt3 k = some px ∧
        ∀ q ∈ (if px.length > 3 then px.take 3 else px).zip
            ([12, 9, 11] : List Int),
          |q.1 - q.2| ≤ 5) ∧
    wait_for_color grabMatchAt3 [12, 9, 11] 5 0 = false :=
  wait_for_color_iff_match grabMatchAt3 [12, 9, 11] 5 1

/-- Witness instantiation for C8's theorem at a concrete recording: initial
position (0, 0) at time 0, one further sample. -/
theorem recording_run_debounced_witness :
    List.Chain'
      (fun a b : Sample =>
        min_move_distance ^ 2 < distSq b.pos a.pos ∧
          min_move_interval < b.time - a.time)
      (recording_run (0, 0) 0 [⟨(20, 0), 1⟩]) :=
  recording_run_debounced (0, 0) 0 [⟨(20, 0), 1⟩]

/-- Witness instantiation for C10's theorem at a concrete action. -/
theorem action_to_dict_from_dict_roundtrip_witness :
    Action.from_dict (Action.to_dict (⟨ActionType.WAIT, 42⟩ : Action Nat)) =
        some ⟨ActionType.WAIT, 42⟩ ∧
      (ActionType.members.map ActionType.value).Nodup :=
  action_to_dict_from_dict_roundtrip ⟨ActionType.WAIT, 42⟩

end Affentanz
